import Mathlib

/-!
Shallow embedding of the request-dispatch and rendering pipeline of the
`astro` package, covering:

* `src/packages/astro/src/integrations/render-hooks.ts` — the render hook
  pipeline `runRenderHookPostProcessHtml`;
* `src/packages/astro/src/core/endpoint/index.ts` — the endpoint invoker
  `call`;
* `src/packages/astro/src/core/app/index.ts` — the `App` facade
  (`match`, `render`, `#renderPage`, `#callEndpoint`);
* `src/packages/astro/src/core/render/dev/index.ts` — the tail of the dev
  renderer `render` (endpoint/response passthrough, tag injection, doctype
  injection).

External collaborators that are not part of the repository sources
(`matchRoute`, the core `render`, `renderEndpoint`, `injectTags`, the
`mime` library, the platform `TextEncoder`) are abstracted as function
parameters; JS strings are Lean `String`s, byte buffers are `List Nat`,
thrown errors are `Except.error`, and the mutable `RouteCache` object that
the source threads by reference is made explicit state.
-/

namespace Astro

/-- Query parameters resolved for a route: an association list of named
dynamic segments, modelling the `params` object. -/
abbrev Params := List (String × String)

/-- Context object passed to a render hook (render-hooks.ts lines 21-27):
routeType, pathname, html, ssr, plus the hook's own options. -/
structure HookCtx (Opts : Type) where
  routeType : String
  pathname : String
  html : String
  ssr : Bool
  options : Opts

/-- The `ssr` module of a loaded render hook: an object with an OPTIONAL
`postProcessHtml` capability.  The capability returns a JS value that is
either a string or undefined; we model it as `Option String`, where
`none` is undefined and `some s` is the string `s` (whose JS truthiness
is `s` being nonempty). -/
structure SSRHookModule (Opts : Type) where
  postProcessHtml : Option (HookCtx Opts → Option String)

/-- A loaded render hook (`SSRLoadedRenderHook`): its `ssr` module and its
integration-supplied `options`. -/
structure SSRLoadedRenderHook (Opts : Type) where
  ssr : SSRHookModule Opts
  options : Opts

/-- Embedding of `runRenderHookPostProcessHtml`
(src/packages/astro/src/integrations/render-hooks.ts, lines 3-33).
The source loops over `renderHooks`; a hook without the `postProcessHtml`
capability is skipped (`if (!postProcessHtml) continue`), otherwise the
capability is invoked on the current html and, only when the returned
value is truthy (for a string: defined and nonempty), the carried html is
replaced (`if (newHtml) html = newHtml`). -/
def runRenderHookPostProcessHtml {Opts : Type}
    (renderHooks : List (SSRLoadedRenderHook Opts))
    (routeType : String) (pathname : String) (html : String) (ssr : Bool) :
    String :=
  match renderHooks with
  | [] => html
  | hook :: rest =>
    match hook.ssr.postProcessHtml with
    | none => runRenderHookPostProcessHtml rest routeType pathname html ssr
    | some f =>
      match f { routeType := routeType, pathname := pathname, html := html,
                ssr := ssr, options := hook.options } with
      | none => runRenderHookPostProcessHtml rest routeType pathname html ssr
      | some newHtml =>
        if newHtml = "" then
          runRenderHookPostProcessHtml rest routeType pathname html ssr
        else
          runRenderHookPostProcessHtml rest routeType pathname newHtml ssr

/-- UTF-8 encoding of one character, as a list of byte values.  Models one
step of the platform `TextEncoder` (an external web API used through
`this.#encoder` in app/index.ts). -/
def utf8CharBytes (c : Char) : List Nat :=
  let n := c.toNat
  if n < 128 then [n]
  else if n < 2048 then [192 + n / 64, 128 + n % 64]
  else if n < 65536 then [224 + n / 4096, 128 + (n / 64) % 64, 128 + n % 64]
  else [240 + n / 262144, 128 + (n / 4096) % 64, 128 + (n / 64) % 64,
        128 + n % 64]

/-- Models `TextEncoder.encode`: the UTF-8 byte sequence of a string.  Its
length is the `byteLength` the source reads off the encoded buffer. -/
def encodeUTF8 (s : String) : List Nat :=
  (s.data.map utf8CharBytes).flatten

/-- Model of a WHATWG `Response` object: status, statusText, headers (an
ordered list of name/value pairs, in insertion order) and an optional byte
body.  `new Response(null, ...)` has body `none`. -/
structure Response where
  status : Nat
  statusText : String
  headers : List (String × String)
  body : Option (List Nat)
deriving DecidableEq, Repr

/-- Route descriptor (the fields of `RouteData` that this pipeline reads):
`component` is the key into the manifest page map, `type` is the declared
route kind string.  The fields `static` and `staticPaths` model, from the
spec (section 4.2), whether the route is statically generated and its
precomputed static-path list; they are consumed only by the spec-modelled
`getParamsAndProps` below, since render/core.ts is not among the sources. -/
structure RouteData where
  component : String
  type : String
  static : Bool
  staticPaths : List String
deriving DecidableEq, Repr

/-- Outcome of `getParamsAndProps` (render/core.ts): either the
`GetParamsAndPropsError.NoMatchingStaticPath` sentinel or the resolved
`[params, props]` pair.  The `props` component is never consumed by the
code paths embedded here (the endpoint `call` destructures only
`params`), so it is not carried. -/
inductive GetParamsAndPropsResult where
  | noMatchingStaticPath
  | ok (params : Params)
deriving DecidableEq, Repr

/-- State of the `RouteCache` object: entries keyed by
(route identity, concrete pathname), per spec section 4.2. -/
abbrev RouteCacheState := List ((String × String) × GetParamsAndPropsResult)

/-- Modelled from the spec: `getParamsAndProps` (section 4.2; its source,
render/core.ts, is not under src/).  For a statically-generated route it
consults the precomputed static-path list and returns the distinguished
`NoMatchingStaticPath` outcome when the concrete path is absent;
otherwise params are computed from the matched pattern, abstracted here
as the `computeParams` parameter. -/
def getParamsAndProps (computeParams : RouteData → String → Params)
    (route : RouteData) (pathname : String) : GetParamsAndPropsResult :=
  if route.static && !(route.staticPaths.contains pathname) then
    .noMatchingStaticPath
  else
    .ok (computeParams route pathname)

/-- Modelled from the spec: the Parameter/Props Cache wrapper around
`getParamsAndProps` (sections 2 and 4.2; route-cache.ts is not under
src/).  Results are cached keyed by (route, concrete-path): a hit returns
the stored entry and leaves the cache unchanged, a miss computes the
result and stores it.  The source mutates the `RouteCache` object in
place; here the state is passed and returned explicitly. -/
def getParamsAndPropsCached (computeParams : RouteData → String → Params)
    (cache : RouteCacheState) (route : RouteData) (pathname : String) :
    GetParamsAndPropsResult × RouteCacheState :=
  match cache.lookup (route.component, pathname) with
  | some r => (r, cache)
  | none =>
    let r := getParamsAndProps computeParams route pathname
    (r, ((route.component, pathname), r) :: cache)

/-- The HTTP request as this pipeline reads it: `new URL(request.url).pathname`. -/
structure Request where
  urlPathname : String
deriving DecidableEq, Repr

/-- Result of `renderEndpoint` (runtime/server, external): the handler
returns either a full `Response` object or an object carrying a string
`body`. -/
inductive EndpointRenderResult where
  | response (r : Response)
  | simple (body : String)
deriving DecidableEq, Repr

/-- `EndpointCallResult` (endpoint/index.ts lines 13-21): tagged union of a
`simple` string body and a passthrough `response`. -/
inductive EndpointCallResult where
  | simple (body : String)
  | response (r : Response)
deriving DecidableEq, Repr

/-- The fields of `EndpointOptions` consumed by the logic of `call`:
`request`, `pathname`, `ssr` and `renderHooks` (`logging`, `origin` and
`site` are passed through but never read by the embedded code; `route`
and `routeCache` are passed as explicit arguments of `call`). -/
structure EndpointOptions (Opts : Type) where
  request : Request
  pathname : String
  ssr : Bool
  renderHooks : List (SSRLoadedRenderHook Opts)

/-- Embedding of `call` (src/packages/astro/src/core/endpoint/index.ts,
lines 23-58).  It resolves params/props through the cached
`getParamsAndProps`; the `NoMatchingStaticPath` outcome throws an error
naming `opts.pathname`; otherwise the handler is invoked
(`renderEndpoint`, abstracted) with the request and params.  A handler
returning a full `Response` is wrapped as a `response` result; otherwise
the body string runs through `runRenderHookPostProcessHtml` with route
type endpoint and is wrapped as a `simple` result. -/
def call {Opts : Type} (computeParams : RouteData → String → Params)
    (renderEndpoint : Request → Params → EndpointRenderResult)
    (route : RouteData) (cache : RouteCacheState)
    (opts : EndpointOptions Opts) :
    Except String EndpointCallResult × RouteCacheState :=
  match getParamsAndPropsCached computeParams cache route opts.pathname with
  | (.noMatchingStaticPath, cache') =>
    (.error ("[getStaticPath] route pattern matched, but no matching static path found. ("
        ++ opts.pathname ++ ")"), cache')
  | (.ok params, cache') =>
    match renderEndpoint opts.request params with
    | .response r => (.ok (.response r), cache')
    | .simple body =>
      (.ok (.simple (runRenderHookPostProcessHtml opts.renderHooks
          "endpoint" opts.pathname body opts.ssr)), cache')

/-- `RenderResponse` (render/dev/index.ts lines 50-52), also the shape of
the core render result consumed by `App.#renderPage`: either an html
string or a passthrough `Response`. -/
inductive RenderResponse where
  | html (html : String)
  | response (r : Response)
deriving DecidableEq, Repr

/-- The manifest fields this pipeline reads: the route list (the
constructor's `manifestData`) and the loaded render hooks.  Renderers,
site, entryModules and the per-route link/script lists are consumed only
by the external core render and are folded into the abstract `coreRender`
dependency. -/
structure AppManifest (Opts : Type) where
  routes : List RouteData
  renderHooks : List (SSRLoadedRenderHook Opts)

/-- The `App` instance state: the manifest and the instance's single
`RouteCache` (field `#routeCache`), whose mutable contents are modelled
as explicit `RouteCacheState`. -/
structure AppState (Opts : Type) where
  manifest : AppManifest Opts
  routeCache : RouteCacheState

/-- Embedding of the `App` constructor (app/index.ts lines 35-42): stores
the manifest and creates ONE fresh `RouteCache` for the instance. -/
def AppState.new {Opts : Type} (manifest : AppManifest Opts) : AppState Opts :=
  { manifest := manifest, routeCache := [] }

/-- External collaborators of the `App` facade, abstracted: `matchRoute`
(routing/match.ts), the core `render` (render/core.ts, receiving and
possibly updating the route cache), param computation inside
`getParamsAndProps`, `renderEndpoint` (keyed by the component looked up
in `pageMap`), and `mime.getType`. -/
structure AppDeps (Opts : Type) where
  matchRoute : String → List RouteData → Option RouteData
  coreRender : RouteCacheState → RouteData → Request →
    Except String RenderResponse × RouteCacheState
  computeParams : RouteData → String → Params
  renderEndpoint : String → Request → Params → EndpointRenderResult
  mimeGetType : String → Option String

/-- Embedding of `App.#renderPage` (app/index.ts lines 69-121): delegates
to the core render (abstracted as `coreRender`, which closes over links,
scripts, renderers, hooks and the resolver); a `response`-kind result
passes through; an `html`-kind result is encoded and wrapped in a 200
response with `Content-Type: text/html` and `Content-Length` set to the
encoded byte length. -/
def renderPage
    (coreRender : RouteCacheState → RouteData → Request →
      Except String RenderResponse × RouteCacheState)
    (cache : RouteCacheState) (request : Request) (routeData : RouteData) :
    Except String Response × RouteCacheState :=
  match coreRender cache routeData request with
  | (.error e, cache') => (.error e, cache')
  | (.ok (.response r), cache') => (.ok r, cache')
  | (.ok (.html html), cache') =>
    let bytes := encodeUTF8 html
    (.ok { status := 200, statusText := "",
           headers := [("Content-Type", "text/html"),
                       ("Content-Length", toString bytes.length)],
           body := some bytes }, cache')

/-- The `EndpointOptions` object that `App.#callEndpoint` builds
(app/index.ts lines 129-138): the instance render hooks, the request and
its URL pathname, `ssr: true`. -/
def endpointOpts {Opts : Type} (app : AppState Opts) (request : Request) :
    EndpointOptions Opts :=
  { request := request, pathname := request.urlPathname, ssr := true,
    renderHooks := app.manifest.renderHooks }

/-- Embedding of `App.#callEndpoint` (app/index.ts lines 123-158): invokes
the endpoint `call`; a `response`-kind result passes through; a
`simple`-kind body is encoded, `Content-Type` is set from
`mime.getType(url.pathname)` ONLY when a MIME type is known, and
`Content-Length` is always set; status 200. -/
def callEndpoint {Opts : Type} (deps : AppDeps Opts) (app : AppState Opts)
    (cache : RouteCacheState) (request : Request) (routeData : RouteData) :
    Except String Response × RouteCacheState :=
  match call deps.computeParams (deps.renderEndpoint routeData.component)
      routeData cache (endpointOpts app request) with
  | (.error e, cache') => (.error e, cache')
  | (.ok (.response r), cache') => (.ok r, cache')
  | (.ok (.simple body), cache') =>
    let headers :=
      match deps.mimeGetType request.urlPathname with
      | some mimeType => [("Content-Type", mimeType)]
      | none => []
    let bytes := encodeUTF8 body
    (.ok { status := 200, statusText := "",
           headers := headers ++ [("Content-Length", toString bytes.length)],
           body := some bytes }, cache')

/-- Embedding of `App.render` (app/index.ts lines 47-67).  Without a
pre-resolved `routeData`, the request pathname is matched against the
manifest routes; no match returns a 404 `Not found` response with a null
body.  A `page`-kind route goes to `#renderPage`, an `endpoint`-kind
route to `#callEndpoint`, and any other kind throws
`Unsupported route type`.  The instance route cache is passed in and the
(possibly updated) cache is returned, modelling the by-reference
`this.#routeCache`. -/
def render {Opts : Type} (deps : AppDeps Opts) (app : AppState Opts)
    (cache : RouteCacheState) (request : Request)
    (routeData? : Option RouteData) :
    Except String Response × RouteCacheState :=
  match (match routeData? with
         | some rd => some rd
         | none => deps.matchRoute request.urlPathname app.manifest.routes) with
  | none =>
    (.ok { status := 404, statusText := "Not found", headers := [],
           body := none }, cache)
  | some routeData =>
    if routeData.type = "page" then
      renderPage deps.coreRender cache request routeData
    else if routeData.type = "endpoint" then
      callEndpoint deps app cache request routeData
    else
      (.error ("Unsupported route type [" ++ routeData.type ++ "]."), cache)

/-- Lowercasing of one character, modelling the case folding performed by
a case-insensitive regular expression test over ASCII. -/
def charLower (c : Char) : Char :=
  if 65 ≤ c.toNat ∧ c.toNat ≤ 90 then Char.ofNat (c.toNat + 32) else c

/-- Whether `pat` occurs at the head of `s`. -/
def listIsPrefixOf : List Char → List Char → Bool
  | [], _ => true
  | _ :: _, [] => false
  | p :: ps, c :: cs => p == c && listIsPrefixOf ps cs

/-- Whether `pat` occurs anywhere in `s` (unanchored match). -/
def listContainsSub (pat : List Char) : List Char → Bool
  | [] => listIsPrefixOf pat []
  | c :: cs => listIsPrefixOf pat (c :: cs) || listContainsSub pat cs

/-- Model of the unanchored case-insensitive regex test
`/<!doctype html/i.test(html)` in render/dev/index.ts line 272: the
pattern is all-lowercase, so the test is an unanchored substring search
after lowercasing the subject. -/
def doctypeRegexTest (html : String) : Bool :=
  listContainsSub ("<!doctype html".data) (html.data.map charLower)

/-- A head tag descriptor (`vite.HtmlTagDescriptor`); in the embedded
code path the tag list is always empty, so only its existence matters. -/
structure HtmlTagDescriptor where
  tag : String
  children : String
deriving DecidableEq, Repr

/-- The constant `isLegacyBuild = false` of the dev renderer
(render/dev/index.ts line 130). -/
def isLegacyBuild : Bool := false

/-- JS default string coercion of a `RenderResponse` record: a plain
object concatenated onto a string with `+` stringifies through
`Object.prototype.toString` to `[object Object]`. -/
def RenderResponse.jsToString (_ : RenderResponse) : String := "[object Object]"

/-- Embedding of the tail of the dev renderer `render`
(src/packages/astro/src/core/render/dev/index.ts, lines 236-277), from
the core render result `content` on.  If the route is endpoint-typed or
the core render produced a passthrough response, `content` is returned
unchanged.  Otherwise the head tags accumulated for injection are
collected — the dev-HMR block and the legacy style block, whose contents
come from externals and are abstracted as `hmrScriptTags` and
`legacyStyleTags`, are both guarded by the constant `isLegacyBuild`, so
the collected list is `[]` — and injected into `content.html` via the
external `injectTags` (html.js, abstracted).
Finally, when the case-insensitive doctype test fails, the source
executes `html = '<!DOCTYPE html>\n' + content`, concatenating the
`content` OBJECT (not the injected `html` string), which string-coerces
to `[object Object]`; the embedding reproduces that concatenation
faithfully. -/
def devRender (injectTags : String → List HtmlTagDescriptor → String)
    (hmrScriptTags legacyStyleTags : List HtmlTagDescriptor)
    (mode : String) (route? : Option RouteData) (content : RenderResponse) :
    RenderResponse :=
  if (match route? with
      | some r => r.type == "endpoint"
      | none => false) then content
  else
    match content with
    | .response r => .response r
    | .html contentHtml =>
      let tags : List HtmlTagDescriptor :=
        (if mode = "development" && isLegacyBuild then hmrScriptTags else [])
          ++ (if isLegacyBuild then legacyStyleTags else [])
      let html := injectTags contentHtml tags
      let html :=
        if doctypeRegexTest html then html
        else "<!DOCTYPE html>\n" ++ RenderResponse.jsToString content
      .html html

/-- Two sequential `render` calls on one `App` instance: the constructor
creates the instance's single `RouteCache`, the first call receives it,
and the second call receives whatever state the first call left in it
(both calls pass `this.#routeCache`). -/
def renderTwice {Opts : Type} (deps : AppDeps Opts)
    (manifest : AppManifest Opts) (req1 req2 : Request) :
    (Except String Response × RouteCacheState) ×
      (Except String Response × RouteCacheState) :=
  let app := AppState.new manifest
  let out1 := render deps app app.routeCache req1 none
  let out2 := render deps app out1.2 req2 none
  (out1, out2)

/-- A render hook whose capability always returns the empty string (a
falsy JS value). -/
def emptyReturningHook : SSRLoadedRenderHook Unit :=
  { ssr := { postProcessHtml := some (fun _ => some "") }, options := () }

/-- A render hook that appends a marker to the html it receives. -/
def bangHook : SSRLoadedRenderHook Unit :=
  { ssr := { postProcessHtml := some (fun ctx => some (ctx.html ++ "!")) },
    options := () }

/-- A concrete handler-authored response used to exercise passthrough. -/
def exResponse : Response :=
  { status := 201, statusText := "Created", headers := [("X-Custom", "1")],
    body := some [1, 2, 3] }

/-- A dynamic endpoint route. -/
def exEndpointRoute : RouteData :=
  { component := "src/pages/api.json.js", type := "endpoint",
    static := false, staticPaths := [] }

/-- A statically-generated endpoint route with two precomputed paths. -/
def exStaticRoute : RouteData :=
  { component := "src/pages/products.js", type := "endpoint",
    static := true, staticPaths := ["/products/1", "/products/2"] }

/-- A statically-generated endpoint route with a single path, used for the
cache-scoping analysis. -/
def exCacheRoute : RouteData :=
  { component := "src/pages/a.json.js", type := "endpoint",
    static := true, staticPaths := ["/a"] }

/-- A page route. -/
def exPageRoute : RouteData :=
  { component := "src/pages/index.astro", type := "page",
    static := true, staticPaths := ["/"] }

/-- A route whose declared kind is neither page nor endpoint. -/
def exOtherRoute : RouteData :=
  { component := "src/pages/r.astro", type := "redirect",
    static := false, staticPaths := [] }

/-- A concrete manifest holding the cache-analysis route and no hooks. -/
def exManifest : AppManifest Unit :=
  { routes := [exCacheRoute], renderHooks := [] }

/-- Concrete external collaborators: pattern matching finds the first
route listing the pathname among its static paths, the core render
produces a fixed html document, the endpoint handler returns a fixed
simple body, and no MIME type is ever known. -/
def exDeps : AppDeps Unit :=
  { matchRoute := fun pathname routes =>
      routes.find? (fun r => r.staticPaths.contains pathname)
  , coreRender := fun cache _ _ => (.ok (.html "<h1>hi</h1>"), cache)
  , computeParams := fun _ _ => []
  , renderEndpoint := fun _ _ _ => .simple "{}"
  , mimeGetType := fun _ => none }

/-- Claim C2: for every list of render hooks H and every initial HTML h,
`runRenderHookPostProcessHtml` over H equals it over the subset of H
whose elements have a `postProcessHtml` capability (hooks lacking it act
as identity), and for the empty hook list the function returns h
unchanged. -/
theorem claim_C2_effective_subset {Opts : Type}
    (renderHooks : List (SSRLoadedRenderHook Opts))
    (routeType pathname html : String) (ssr : Bool) :
    runRenderHookPostProcessHtml renderHooks routeType pathname html ssr =
      runRenderHookPostProcessHtml
        (renderHooks.filter (fun hook => hook.ssr.postProcessHtml.isSome))
        routeType pathname html ssr ∧
    runRenderHookPostProcessHtml ([] : List (SSRLoadedRenderHook Opts))
      routeType pathname html ssr = html := by
  refine ⟨?_, rfl⟩
  induction renderHooks generalizing html with
  | nil => rfl
  | cons hook rest ih =>
    cases hf : hook.ssr.postProcessHtml with
    | none =>
      simp only [runRenderHookPostProcessHtml, hf, List.filter_cons,
        Option.isSome_none, Bool.false_eq_true, if_false]
      exact ih html
    | some f =>
      simp only [runRenderHookPostProcessHtml, hf, List.filter_cons,
        Option.isSome_some, if_true]
      cases f { routeType := routeType, pathname := pathname, html := html,
                ssr := ssr, options := hook.options } with
      | none => exact ih html
      | some newHtml =>
        by_cases hempty : newHtml = ""
        · simp only [hempty, if_pos rfl]
          exact ih html
        · simp only [if_neg hempty]
          exact ih newHtml

/-- Claim C10: a hook whose `postProcessHtml` returns a falsy value
(undefined or the empty string) is a no-op — the HTML carried into the
next hook is the previous HTML — and consequently no hook chain can turn
a nonempty document into the empty string. -/
theorem claim_C10_falsy_is_noop {Opts : Type}
    (hook : SSRLoadedRenderHook Opts)
    (rest : List (SSRLoadedRenderHook Opts))
    (routeType pathname html : String) (ssr : Bool)
    (f : HookCtx Opts → Option String)
    (hf : hook.ssr.postProcessHtml = some f)
    (hfalsy : f { routeType := routeType, pathname := pathname, html := html,
                  ssr := ssr, options := hook.options } = none ∨
              f { routeType := routeType, pathname := pathname, html := html,
                  ssr := ssr, options := hook.options } = some "") :
    runRenderHookPostProcessHtml (hook :: rest) routeType pathname html ssr =
      runRenderHookPostProcessHtml rest routeType pathname html ssr ∧
    ∀ (hooks : List (SSRLoadedRenderHook Opts)) (h0 : String), h0 ≠ "" →
      runRenderHookPostProcessHtml hooks routeType pathname h0 ssr ≠ "" := by
  constructor
  · simp only [runRenderHookPostProcessHtml, hf]
    rcases hfalsy with hres | hres
    · rw [hres]
    · rw [hres]
      simp
  · intro hooks
    induction hooks with
    | nil =>
      intro h0 hne
      exact hne
    | cons hk rest2 ih =>
      intro h0 hne
      rw [runRenderHookPostProcessHtml]
      split
      · exact ih h0 hne
      · split
        · exact ih h0 hne
        · split
          · exact ih h0 hne
          · next hnew => exact ih _ hnew

/-- Claim C10 witness: a concrete chain headed by a hook returning the
empty string leaves the document unchanged and nonempty. -/
theorem claim_C10_falsy_is_noop_witness :
    runRenderHookPostProcessHtml [emptyReturningHook] "page" "/x" "<p>hi</p>" true
      = "<p>hi</p>" ∧
    runRenderHookPostProcessHtml [emptyReturningHook] "page" "/x" "<p>hi</p>" true
      ≠ "" := by
  have h := claim_C10_falsy_is_noop emptyReturningHook [] "page" "/x"
    "<p>hi</p>" true (fun _ => some "") rfl (Or.inr rfl)
  exact ⟨h.1, h.2 [emptyReturningHook] "<p>hi</p>" (by decide)⟩

/-- Claim C1: when the endpoint handler returns a full Response object,
`call` yields a `response`-kind result wrapping exactly that object, and
the render hook pipeline is never consulted — the result is the same for
every render hook list. -/
theorem claim_C1_response_passthrough {Opts : Type}
    (computeParams : RouteData → String → Params)
    (renderEndpoint : Request → Params → EndpointRenderResult)
    (route : RouteData) (cache cache' : RouteCacheState)
    (opts : EndpointOptions Opts) (params : Params) (r : Response)
    (hparams : getParamsAndPropsCached computeParams cache route opts.pathname
      = (.ok params, cache'))
    (hhandler : renderEndpoint opts.request params = .response r) :
    call computeParams renderEndpoint route cache opts
      = (.ok (.response r), cache') ∧
    ∀ hooks : List (SSRLoadedRenderHook Opts),
      call computeParams renderEndpoint route cache
          { opts with renderHooks := hooks }
        = (.ok (.response r), cache') := by
  constructor
  · rw [call]
    simp only [hparams, hhandler]
  · intro hooks
    show call computeParams renderEndpoint route cache
        ⟨opts.request, opts.pathname, opts.ssr, hooks⟩
      = (.ok (.response r), cache')
    rw [call]
    simp only [hparams, hhandler]

/-- Claim C1 witness: a concrete handler-authored response passes through
unmodified, with or without a hook that would rewrite html bodies. -/
theorem claim_C1_response_passthrough_witness :
    call (fun _ _ => []) (fun _ _ => .response exResponse) exEndpointRoute []
        ({ request := { urlPathname := "/api.json" }, pathname := "/api.json",
           ssr := true, renderHooks := [] } : EndpointOptions Unit)
      = (.ok (.response exResponse),
         [(("src/pages/api.json.js", "/api.json"), .ok [])]) ∧
    call (fun _ _ => []) (fun _ _ => .response exResponse) exEndpointRoute []
        ({ request := { urlPathname := "/api.json" }, pathname := "/api.json",
           ssr := true, renderHooks := [bangHook] } : EndpointOptions Unit)
      = (.ok (.response exResponse),
         [(("src/pages/api.json.js", "/api.json"), .ok [])]) := by
  have h := claim_C1_response_passthrough (fun _ _ => [])
    (fun _ _ => .response exResponse) exEndpointRoute []
    [(("src/pages/api.json.js", "/api.json"), .ok [])]
    ({ request := { urlPathname := "/api.json" }, pathname := "/api.json",
       ssr := true, renderHooks := [] } : EndpointOptions Unit)
    [] exResponse rfl rfl
  exact ⟨h.1, h.2 [bangHook]⟩

/-- Claim C3: invoking `call` on a statically-generated route whose
pathname is absent from its precomputed static-path set (and not yet
cached) does not return normally: it throws an error whose message
contains the offending pathname. -/
theorem claim_C3_no_matching_static_path {Opts : Type}
    (computeParams : RouteData → String → Params)
    (renderEndpoint : Request → Params → EndpointRenderResult)
    (route : RouteData) (cache : RouteCacheState)
    (opts : EndpointOptions Opts)
    (hstatic : route.static = true)
    (habsent : route.staticPaths.contains opts.pathname = false)
    (hfresh : cache.lookup (route.component, opts.pathname) = none) :
    (call computeParams renderEndpoint route cache opts).1 =
      .error ("[getStaticPath] route pattern matched, but no matching static path found. ("
        ++ opts.pathname ++ ")") ∧
    ∃ pre post,
      ("[getStaticPath] route pattern matched, but no matching static path found. ("
        ++ opts.pathname ++ ")") = pre ++ opts.pathname ++ post := by
  refine ⟨?_, "[getStaticPath] route pattern matched, but no matching static path found. (",
    ")", rfl⟩
  rw [call, getParamsAndPropsCached, hfresh]
  simp only [getParamsAndProps, hstatic, habsent, Bool.not_false,
    Bool.and_true, if_pos]

/-- Claim C3 witness: requesting `/products/3` against a static route
whose precomputed paths are `/products/1` and `/products/2` throws the
error naming `/products/3`. -/
theorem claim_C3_no_matching_static_path_witness :
    (call (fun _ _ => []) (fun _ _ => .simple "") exStaticRoute []
        ({ request := { urlPathname := "/products/3" },
           pathname := "/products/3", ssr := true,
           renderHooks := [] } : EndpointOptions Unit)).1 =
      .error ("[getStaticPath] route pattern matched, but no matching static path found. ("
        ++ "/products/3" ++ ")") ∧
    ∃ pre post,
      ("[getStaticPath] route pattern matched, but no matching static path found. ("
        ++ "/products/3" ++ ")") = pre ++ "/products/3" ++ post :=
  claim_C3_no_matching_static_path (fun _ _ => []) (fun _ _ => .simple "")
    exStaticRoute []
    ({ request := { urlPathname := "/products/3" },
       pathname := "/products/3", ssr := true,
       renderHooks := [] } : EndpointOptions Unit)
    (by decide) (by decide) (by decide)

/-- Claim C4: a request whose URL pathname matches no route in the
manifest, with no pre-resolved routeData supplied, makes `App.render`
return a 404 `Not found` response with no body, raising no error (and
leaving the route cache untouched). -/
theorem claim_C4_unmatched_is_404 {Opts : Type} (deps : AppDeps Opts)
    (app : AppState Opts) (cache : RouteCacheState) (request : Request)
    (hnomatch : deps.matchRoute request.urlPathname app.manifest.routes = none) :
    render deps app cache request none =
      (.ok { status := 404, statusText := "Not found", headers := [],
             body := none }, cache) := by
  rw [render]
  simp only [hnomatch]

/-- Claim C4 witness: the concrete matcher finds nothing for a request to
an unmatched path, and the render returns the bodyless 404. -/
theorem claim_C4_unmatched_is_404_witness :
    render exDeps (AppState.new exManifest) [] { urlPathname := "/does-not-exist" } none =
      (.ok { status := 404, statusText := "Not found", headers := [],
             body := none }, []) :=
  claim_C4_unmatched_is_404 exDeps (AppState.new exManifest) []
    { urlPathname := "/does-not-exist" } (by decide)

/-- Claim C7: a page render through `App.render` whose core render result
is `html`-kind yields a response with status 200, `Content-Type:
text/html`, `Content-Length` equal to the byte length of the UTF-8
encoding of the html string, and that encoding as its body. -/
theorem claim_C7_html_assembly {Opts : Type} (deps : AppDeps Opts)
    (app : AppState Opts) (cache cache' : RouteCacheState)
    (request : Request) (routeData : RouteData) (html : String)
    (hpage : routeData.type = "page")
    (hcore : deps.coreRender cache routeData request = (.ok (.html html), cache')) :
    render deps app cache request (some routeData) =
      (.ok { status := 200, statusText := "",
             headers := [("Content-Type", "text/html"),
                         ("Content-Length", toString (encodeUTF8 html).length)],
             body := some (encodeUTF8 html) }, cache') := by
  rw [render]
  simp only [hpage, if_pos, renderPage, hcore]

/-- Claim C7 witness: rendering the concrete page route assembles the
full response around the encoded document. -/
theorem claim_C7_html_assembly_witness :
    render exDeps (AppState.new exManifest) [] { urlPathname := "/" }
        (some exPageRoute) =
      (.ok { status := 200, statusText := "",
             headers := [("Content-Type", "text/html"),
                         ("Content-Length",
                          toString (encodeUTF8 "<h1>hi</h1>").length)],
             body := some (encodeUTF8 "<h1>hi</h1>") }, []) :=
  claim_C7_html_assembly exDeps (AppState.new exManifest) [] []
    { urlPathname := "/" } exPageRoute "<h1>hi</h1>" rfl rfl

/-- Claim C8: an endpoint call through `App.render` yielding a
`simple`-kind body produces a 200 response whose `Content-Length` is the
byte length of the encoded body; `Content-Type` is the MIME type the
`mime` library resolves from the request pathname, and the header is
omitted entirely when no MIME type is known. -/
theorem claim_C8_simple_assembly {Opts : Type} (deps : AppDeps Opts)
    (app : AppState Opts) (cache cache' : RouteCacheState)
    (request : Request) (routeData : RouteData) (body : String)
    (hendpoint : routeData.type = "endpoint")
    (hcall : call deps.computeParams (deps.renderEndpoint routeData.component)
        routeData cache (endpointOpts app request) = (.ok (.simple body), cache')) :
    render deps app cache request (some routeData) =
      (.ok { status := 200, statusText := "",
             headers := (match deps.mimeGetType request.urlPathname with
                         | some mimeType => [("Content-Type", mimeType)]
                         | none => []) ++
               [("Content-Length", toString (encodeUTF8 body).length)],
             body := some (encodeUTF8 body) }, cache') ∧
    (deps.mimeGetType request.urlPathname = none →
      render deps app cache request (some routeData) =
        (.ok { status := 200, statusText := "",
               headers := [("Content-Length", toString (encodeUTF8 body).length)],
               body := some (encodeUTF8 body) }, cache')) := by
  have hmain : render deps app cache request (some routeData) =
      (.ok { status := 200, statusText := "",
             headers := (match deps.mimeGetType request.urlPathname with
                         | some mimeType => [("Content-Type", mimeType)]
                         | none => []) ++
               [("Content-Length", toString (encodeUTF8 body).length)],
             body := some (encodeUTF8 body) }, cache') := by
    rw [render]
    rw [if_neg (by rw [hendpoint]; decide), if_pos hendpoint]
    rw [callEndpoint]
    simp only [hcall]
  refine ⟨hmain, fun hmime => ?_⟩
  rw [hmain, hmime]
  simp

/-- Claim C8 witness: the concrete endpoint body is assembled with only a
`Content-Length` header, since the concrete MIME resolver knows no type. -/
theorem claim_C8_simple_assembly_witness :
    render exDeps (AppState.new exManifest) [] { urlPathname := "/a" }
        (some exCacheRoute) =
      (.ok { status := 200, statusText := "",
             headers := [("Content-Length", toString (encodeUTF8 "{}").length)],
             body := some (encodeUTF8 "{}") },
       [(("src/pages/a.json.js", "/a"), .ok [])]) :=
  (claim_C8_simple_assembly exDeps (AppState.new exManifest) []
    [(("src/pages/a.json.js", "/a"), .ok [])] { urlPathname := "/a" }
    exCacheRoute "{}" rfl rfl).2 rfl

/-- Claim C9: a matched route whose declared kind is neither page nor
endpoint makes `App.render` throw an `Unsupported route type` error —
never a response, in particular never a 404 — while a page kind takes
exactly the page-render path and an endpoint kind exactly the
endpoint-invoke path, the two being mutually exclusive. -/
theorem claim_C9_kind_dispatch {Opts : Type} (deps : AppDeps Opts)
    (app : AppState Opts) (cache : RouteCacheState) (request : Request)
    (routeData : RouteData) :
    (routeData.type ≠ "page" → routeData.type ≠ "endpoint" →
      render deps app cache request (some routeData) =
        (.error ("Unsupported route type [" ++ routeData.type ++ "]."), cache) ∧
      ∀ resp : Response,
        (render deps app cache request (some routeData)).1 ≠ .ok resp) ∧
    (routeData.type = "page" →
      render deps app cache request (some routeData) =
        renderPage deps.coreRender cache request routeData) ∧
    (routeData.type = "endpoint" →
      render deps app cache request (some routeData) =
        callEndpoint deps app cache request routeData) ∧
    ¬ (routeData.type = "page" ∧ routeData.type = "endpoint") := by
  refine ⟨fun hnp hne => ?_, fun hp => ?_, fun he => ?_, fun hboth => ?_⟩
  · have herr : render deps app cache request (some routeData) =
        (.error ("Unsupported route type [" ++ routeData.type ++ "]."), cache) := by
      rw [render, if_neg hnp, if_neg hne]
    refine ⟨herr, fun resp => ?_⟩
    rw [herr]
    intro hcontra
    exact Except.noConfusion hcontra
  · rw [render, if_pos hp]
  · rw [render, if_neg (by rw [he]; decide), if_pos he]
  · rw [hboth.1] at hboth
    exact absurd hboth.2 (by decide)

/-- Claim C9 witness: dispatch at the three concrete route kinds — a
redirect kind throws the unsupported-kind error and yields no response,
the page kind runs the page renderer, the endpoint kind runs the
endpoint invoker. -/
theorem claim_C9_kind_dispatch_witness :
    (render exDeps (AppState.new exManifest) [] { urlPathname := "/r" }
        (some exOtherRoute) =
      (.error ("Unsupported route type [" ++ "redirect" ++ "]."), []) ∧
     ∀ resp : Response,
       (render exDeps (AppState.new exManifest) [] { urlPathname := "/r" }
           (some exOtherRoute)).1 ≠ .ok resp) ∧
    render exDeps (AppState.new exManifest) [] { urlPathname := "/" }
        (some exPageRoute) =
      renderPage exDeps.coreRender [] { urlPathname := "/" } exPageRoute ∧
    render exDeps (AppState.new exManifest) [] { urlPathname := "/a" }
        (some exCacheRoute) =
      callEndpoint exDeps (AppState.new exManifest) [] { urlPathname := "/a" }
        exCacheRoute := by
  refine ⟨?_, ?_, ?_⟩
  · exact (claim_C9_kind_dispatch exDeps (AppState.new exManifest) []
      { urlPathname := "/r" } exOtherRoute).1 (by decide) (by decide)
  · exact (claim_C9_kind_dispatch exDeps (AppState.new exManifest) []
      { urlPathname := "/" } exPageRoute).2.1 rfl
  · exact (claim_C9_kind_dispatch exDeps (AppState.new exManifest) []
      { urlPathname := "/a" } exCacheRoute).2.2.1 rfl

/-- Claim C5 (code bug): for a page route whose core render output
`<p>hi</p>` carries no doctype, with identity tag injection, the dev
renderer returns the doctype line followed by the JS string coercion of
the content OBJECT — `[object Object]` — and NOT the doctype line
followed by the tag-injected HTML, because line 273 of
render/dev/index.ts concatenates `content` instead of `html`. -/
theorem claim_C5_doctype_eats_document :
    devRender (fun h _ => h) [] [] "development" none (.html "<p>hi</p>") =
      .html ("<!DOCTYPE html>\n" ++ "[object Object]") ∧
    devRender (fun h _ => h) [] [] "development" none (.html "<p>hi</p>") ≠
      .html ("<!DOCTYPE html>\n" ++ "<p>hi</p>") := by
  refine ⟨rfl, ?_⟩
  intro hcontra
  rw [show devRender (fun h _ => h) [] [] "development" none (.html "<p>hi</p>")
      = .html ("<!DOCTYPE html>\n" ++ "[object Object]") from rfl] at hcontra
  exact absurd hcontra (by decide)

/-- Claim C6 counterexample: on one `App` instance serving `/a` twice, the
cache state handed to the second `render` call (the state the first call
left in the instance's single `RouteCache`) holds the params entry the
first call wrote — an entry absent from the instance's initial cache —
and the second call's params resolution is served from it, so the second
call DOES observe cache entries written by the first. -/
theorem claim_C6_counterexample :
    (renderTwice exDeps exManifest { urlPathname := "/a" }
        { urlPathname := "/a" }).1.2.lookup ("src/pages/a.json.js", "/a")
      = some (.ok []) ∧
    (AppState.new exManifest).routeCache.lookup ("src/pages/a.json.js", "/a")
      = none ∧
    (renderTwice exDeps exManifest { urlPathname := "/a" }
        { urlPathname := "/a" }).2 =
      render exDeps (AppState.new exManifest)
        ((renderTwice exDeps exManifest { urlPathname := "/a" }
            { urlPathname := "/a" }).1.2)
        { urlPathname := "/a" } none ∧
    getParamsAndPropsCached exDeps.computeParams
        ((renderTwice exDeps exManifest { urlPathname := "/a" }
            { urlPathname := "/a" }).1.2) exCacheRoute "/a"
      = (.ok [],
         (renderTwice exDeps exManifest { urlPathname := "/a" }
             { urlPathname := "/a" }).1.2) := by
  exact ⟨rfl, rfl, rfl, rfl⟩

/-- Claim C6 as amended: the Parameter/Props route cache is scoped to the
`App` INSTANCE, not to a request — the constructor creates one
`RouteCache` and every `render` call on the instance receives its current
state, so the second of two calls runs on the cache the first call left,
and any entry the first call wrote is returned to the second call's
params resolution as a hit, without recomputation and without a new
write. -/
theorem claim_C6_instance_scoped_cache {Opts : Type} (deps : AppDeps Opts)
    (manifest : AppManifest Opts) (req1 req2 : Request) (route : RouteData)
    (pathname : String) (v : GetParamsAndPropsResult)
    (hwritten : ((renderTwice deps manifest req1 req2).1.2).lookup
      (route.component, pathname) = some v) :
    (renderTwice deps manifest req1 req2).2 =
      render deps (AppState.new manifest)
        ((renderTwice deps manifest req1 req2).1.2) req2 none ∧
    getParamsAndPropsCached deps.computeParams
        ((renderTwice deps manifest req1 req2).1.2) route pathname
      = (v, (renderTwice deps manifest req1 req2).1.2) := by
  refine ⟨rfl, ?_⟩
  rw [getParamsAndPropsCached, hwritten]

/-- Claim C6 witness: the amended statement at the concrete instance — the
entry written while serving the first `/a` request is served back during
the second. -/
theorem claim_C6_instance_scoped_cache_witness :
    (renderTwice exDeps exManifest { urlPathname := "/a" }
        { urlPathname := "/a" }).2 =
      render exDeps (AppState.new exManifest)
        ((renderTwice exDeps exManifest { urlPathname := "/a" }
            { urlPathname := "/a" }).1.2) { urlPathname := "/a" } none ∧
    getParamsAndPropsCached exDeps.computeParams
        ((renderTwice exDeps exManifest { urlPathname := "/a" }
            { urlPathname := "/a" }).1.2) exCacheRoute "/a"
      = (.ok [],
         (renderTwice exDeps exManifest { urlPathname := "/a" }
             { urlPathname := "/a" }).1.2) :=
  claim_C6_instance_scoped_cache exDeps exManifest { urlPathname := "/a" }
    { urlPathname := "/a" } exCacheRoute "/a" (.ok []) rfl

end Astro
